import Mathlib

/-!
# Verification of `codepy/toolchain.py`

A shallow embedding of the toolchain-configuration layer of `codepy`:
the `Toolchain` record and its operations (`add_library`, `abi_id`,
`with_optimization_level`), the per-backend command-line builders
(`GCCToolchain._cmdline`, `NVCCToolchain._cmdline`, `ISPCToolchain._cmdline`),
the dependency-output parser of `GCCLikeToolchain.get_dependencies`, and the
build executors (`build_object`, `build_extension`, `link_extension`).

Process execution is modelled by a parameter
`exec : List String → Int × String × String` returning
(exit code, captured stdout, captured stderr); `pytools.prefork.call`,
which captures nothing, is modelled as projecting the exit code.
Python lists become `List String`; the Python `set` of features is
modelled as a `List String` with set-semantics insertion (membership
test before adding), which preserves every observable behaviour of the
source (`in` tests and `add`).
-/

namespace Codepy

/-- Python `needle in hay` on strings: substring containment. -/
def strIn (needle hay : String) : Prop := needle.data <:+: hay.data

instance (needle hay : String) : Decidable (strIn needle hay) :=
  inferInstanceAs (Decidable (needle.data <:+: hay.data))

/-- Python `s.endswith(suffix)`. -/
def pyEndsWith (s suffix : String) : Bool :=
  suffix.data.reverse.isPrefixOf s.data.reverse

/-- Python `s.startswith(pfx)`. -/
def pyStartsWith (s pfx : String) : Bool :=
  pfx.data.isPrefixOf s.data

/-- Python whitespace characters recognized by `str.split()` with no
arguments. -/
def pyIsSpace (c : Char) : Bool :=
  c = ' ' ∨ c = '\t' ∨ c = '\n' ∨ c = '\r' ∨ c = '\x0b' ∨ c = '\x0c'

/-- Helper for `pySplitWS`: scan the characters, accumulating the current
token in reverse; whitespace ends a token, and empty tokens (whitespace
runs) are dropped. -/
def pySplitWSAux : List Char → List Char → List String
  | [], cur => if cur = [] then [] else [String.mk cur.reverse]
  | c :: cs, cur =>
    if pyIsSpace c then
      if cur = [] then pySplitWSAux cs []
      else String.mk cur.reverse :: pySplitWSAux cs []
    else pySplitWSAux cs (c :: cur)

/-- Python `s.split()` with no arguments: split on runs of whitespace,
dropping empty fields. -/
def pySplitWS (s : String) : List String := pySplitWSAux s.data []

/-- Helper for `pySplitLines`: split at each separator character, keeping
empty fields (Python `s.split(sep)` semantics). -/
def pySplitCharAux (sep : Char) : List Char → List Char → List String
  | [], cur => [String.mk cur.reverse]
  | c :: cs, cur =>
    if c = sep then String.mk cur.reverse :: pySplitCharAux sep cs []
    else pySplitCharAux sep cs (c :: cur)

/-- Python `s.split("\n")`: split at each newline, keeping empty fields. -/
def pySplitLines (s : String) : List String := pySplitCharAux '\n' s.data []

/-- Python `" ".join(l)` and friends. -/
def pyJoin (sep : String) : List String → String
  | [] => ""
  | [x] => x
  | x :: y :: rest => x ++ sep ++ pyJoin sep (y :: rest)

/-- The fields of the `Toolchain` record as constructed by
`guess_toolchain` / `guess_nvcc_toolchain` (see
`_guess_toolchain_kwargs_from_python_config`): the `pytools.Record`
holds `cc`, `ld`, `cflags`, `ldflags`, `libraries`, `include_dirs`,
`library_dirs`, `so_ext`, `o_ext`, `defines`, `undefines`, plus the
`features` set added by `Toolchain.__init__`. -/
structure Toolchain where
  cc : String
  ld : String
  cflags : List String
  ldflags : List String
  libraries : List String
  include_dirs : List String
  library_dirs : List String
  so_ext : String
  o_ext : String
  defines : List String
  undefines : List String
  features : List String
deriving DecidableEq, Repr

/-- Python `set.add` on the feature list: a no-op when the element is
already present (set semantics). -/
def featAdd (feats : List String) (f : String) : List String :=
  if f ∈ feats then feats else feats ++ [f]

/-- The directory-merging loop of `Toolchain.add_library`:
`for d in new: if d not in cur: cur.append(d)`. -/
def appendNewDirs (cur new : List String) : List String :=
  new.foldl (fun acc d => if d ∈ acc then acc else acc ++ [d]) cur

/-- `Toolchain.add_library(feature, include_dirs, library_dirs, libraries)`
(`toolchain.py` lines 59-82).  Returns the mutated record: if the feature
is already present the method returns immediately; otherwise it records
the feature, appends not-yet-present include/library directories, and
prepends the new libraries. -/
def add_library (tc : Toolchain) (feature : String)
    (include_dirs library_dirs libraries : List String) : Toolchain :=
  if feature ∈ tc.features then tc
  else
    { tc with
      features := featAdd tc.features feature
      include_dirs := appendNewDirs tc.include_dirs include_dirs
      library_dirs := appendNewDirs tc.library_dirs library_dirs
      libraries := libraries ++ tc.libraries }

/-- `GCCToolchain._cmdline(files, object)` (`toolchain.py` lines 252-269). -/
def gccCmdline (tc : Toolchain) (files : List String) (object : Bool) :
    List String :=
  let ld_options := if object then ["-c"] else tc.ldflags
  let link := if object then [] else
    tc.library_dirs.map (fun d => "-L" ++ d)
      ++ tc.libraries.map (fun l => "-l" ++ l)
  [tc.cc]
    ++ tc.cflags
    ++ ld_options
    ++ tc.defines.map (fun d => "-D" ++ d)
    ++ tc.undefines.map (fun u => "-U" ++ u)
    ++ tc.include_dirs.map (fun i => "-I" ++ i)
    ++ files
    ++ link

/-- `NVCCToolchain._cmdline(files, object)` (`toolchain.py` lines 314-331);
structurally identical to the GCC variant. -/
def nvccCmdline (tc : Toolchain) (files : List String) (object : Bool) :
    List String :=
  let ldflags := if object then ["-c"] else tc.ldflags
  let load := if object then [] else
    tc.library_dirs.map (fun d => "-L" ++ d)
      ++ tc.libraries.map (fun l => "-l" ++ l)
  [tc.cc]
    ++ tc.cflags
    ++ ldflags
    ++ tc.defines.map (fun d => "-D" ++ d)
    ++ tc.undefines.map (fun u => "-U" ++ u)
    ++ tc.include_dirs.map (fun i => "-I" ++ i)
    ++ files
    ++ load

/-- The value returned by `GCCToolchain.abi_id` (`toolchain.py`
lines 271-272): the Python list
`[self.get_version(), sys.version, self._cmdline([])]`.  The version
string and the interpreter version are environmental inputs and appear
as parameters. -/
structure AbiId where
  version : String
  pyVersion : String
  cmdline : List String
deriving DecidableEq, Repr

/-- `GCCToolchain.abi_id()` = `Toolchain.abi_id(self) + [self._cmdline([])]`,
with `get_version()` and `sys.version` supplied as parameters. -/
def gccAbiId (tc : Toolchain) (version pyVersion : String) : AbiId :=
  { version := version
    pyVersion := pyVersion
    cmdline := gccCmdline tc [] false }

/-- Boolean form of `strIn`, used where the source branches on
`"error" in stderr`. -/
def strInB (needle hay : String) : Bool := decide (strIn needle hay)

/-- The `level` argument of `with_optimization_level`: either the string
`"debug"` or an integer. -/
inductive OptLevel where
  | debug
  | num (n : Int)
deriving DecidableEq, Repr

/-- Python lexicographic comparison `t1 < t2` on integer tuples, as used
by `self.get_version_tuple() >= (4, 3)`. -/
def pyTupleLt : List Int → List Int → Bool
  | [], [] => false
  | [], _ :: _ => true
  | _ :: _, [] => false
  | a :: as, b :: bs => if a < b then true else if b < a then false else pyTupleLt as bs

/-- Python `t1 >= t2` on integer tuples. -/
def pyTupleGe (a b : List Int) : Bool := !(pyTupleLt a b)

/-- The `remove_prefix` loop of `with_optimization_level`: filter out,
prefix by prefix, every flag starting with one of `pfxs`. -/
def stripFlags (pfxs : List String) (flags : List String) : List String :=
  pfxs.foldl (fun l pfx => l.filter (fun f => !(pyStartsWith f pfx))) flags

/-- The prefixes stripped by `GCCToolchain.with_optimization_level`
(`toolchain.py` line 279). -/
def gccOptPrefixes : List String := ["-O", "-g", "-march", "-mtune", "-DNDEBUG"]

/-- The `oflags` computed by `GCCToolchain.with_optimization_level`
(`toolchain.py` lines 282-288); the compiler's version tuple
(`get_version_tuple()`) is an environmental input and appears as the
parameter `vt`. -/
def gccOflags (level : OptLevel) (vt : List Int) : List String :=
  match level with
  | .debug => ["-g"]
  | .num n =>
    ["-O" ++ toString n, "-DNDEBUG"]
      ++ (if n ≥ 2 ∧ pyTupleGe vt [4, 3] then ["-march=native", "-mtune=native"] else [])

/-- `GCCToolchain.with_optimization_level(level, ...)` (`toolchain.py`
lines 274-290): strips previous optimization/debug/arch flags and returns
`self.copy(cflags=cflags + oflags)`. -/
def gccWithOptimizationLevel (tc : Toolchain) (level : OptLevel) (vt : List Int) :
    Toolchain :=
  { tc with cflags := stripFlags gccOptPrefixes tc.cflags ++ gccOflags level vt }

/-- The fields of an `ISPCToolchain` record: the kwargs assembled by
`ISPCToolchain.__init__` (`cc`, `cpp`, `ld`, `cflags`, `cppflags`,
`defines`, `libraries`) together with the pass-through record fields its
inherited methods read (`ldflags`, `undefines`, `include_dirs`,
`library_dirs`, `features`). -/
structure ISPCToolchain where
  cc : String
  cpp : String
  ld : String
  cflags : List String
  cppflags : List String
  ldflags : List String
  libraries : List String
  include_dirs : List String
  library_dirs : List String
  defines : List String
  undefines : List String
  features : List String
deriving DecidableEq, Repr

/-- The prefixes stripped by `ISPCToolchain.with_optimization_level`
(`toolchain.py` line 563). -/
def ispcOptPrefixes : List String := ["-O", "-g", "-DNDEBUG"]

/-- The `oflags` computed by `ISPCToolchain.with_optimization_level`
(`toolchain.py` lines 566-569); no version gate, no arch flags. -/
def ispcOflags (level : OptLevel) : List String :=
  match level with
  | .debug => ["-g"]
  | .num n => ["-O" ++ toString n, "-DNDEBUG"]

/-- `ISPCToolchain.with_optimization_level(level, ...)` (`toolchain.py`
lines 558-571). -/
def ispcWithOptimizationLevel (tc : ISPCToolchain) (level : OptLevel) :
    ISPCToolchain :=
  { tc with cflags := stripFlags ispcOptPrefixes tc.cflags ++ ispcOflags level }

/-- `ISPCToolchain.get_cc(files, obj)` (`toolchain.py` lines 479-485):
`self.cc` if (`obj` and all files end in `.ispc`) or the file list is
empty; `self.cpp` if all files end in `.cpp`; else `self.ld`. -/
def getCC (tc : ISPCToolchain) (files : List String) (obj : Bool) : String :=
  if (obj && files.all (fun f => pyEndsWith f ".ispc")) || files.isEmpty then tc.cc
  else if files.all (fun f => pyEndsWith f ".cpp") then tc.cpp
  else tc.ld

/-- Whether `f.rindex('.')` succeeds. -/
def hasDot (f : String) : Bool := f.data.contains '.'

/-- `__get_ext(f) = f[f.rindex('.') + 1:]`: the substring after the last
dot (meaningful only when `hasDot f`). -/
def extAfterLastDot (f : String) : String :=
  String.mk ((f.data.reverse.takeWhile (fun c => c ≠ '.')).reverse)

/-- The Python expression `set([__get_ext(f) for f in file])`, followed by
`', '.join(...)`.  CPython set iteration order is unspecified; we model it
as insertion order (first occurrences), and prove only order-independent
(membership) properties of the resulting message. -/
def dedupKeepFirst (l : List String) : List String := appendNewDirs [] l

/-- `ISPCToolchain._cmdline(file, obj)` (`toolchain.py` lines 519-553).
Python exceptions (`CompileError` for mixed file types, `IndexError` for
`file[0]` on an empty list, `ValueError` for `rindex` on a dot-free name)
are modelled as `Except.error`. -/
def ispcCmdline (tc : ISPCToolchain) (file : List String) (obj : Bool) :
    Except String (List String) :=
  let cc := getCC tc file obj
  let flagsE : Except String (List String) :=
    if cc ≠ tc.cc then
      let flags := tc.cppflags ++ (if obj then ["-c"] else [])
      match file with
      | [] => .error "IndexError: list index out of range"
      | f0 :: _ =>
        if ¬ hasDot f0 then .error "ValueError: substring not found"
        else
          let ext := extAfterLastDot f0
          if ¬ (file.all (fun f => pyEndsWith f ext)) then
            if ¬ (file.all hasDot) then .error "ValueError: substring not found"
            else
              .error ("Can't compile mixed filetypes: "
                ++ pyJoin ", " (dedupKeepFirst (file.map extAfterLastDot)))
          else .ok flags
    else .ok tc.cflags
  match flagsE with
  | .error e => .error e
  | .ok flags =>
    let ld_options := if obj then [] else tc.ldflags
    let link := if obj then [] else
      tc.library_dirs.map (fun d => "-L" ++ d)
        ++ tc.libraries.map (fun l => if l = "-fopenmp" then "-fopenmp" else "-l" ++ l)
    .ok ([cc] ++ flags ++ ld_options
      ++ tc.defines.map (fun d => "-D" ++ d)
      ++ tc.undefines.map (fun u => "-U" ++ u)
      ++ tc.include_dirs.map (fun i => "-I" ++ i)
      ++ file ++ link)

/-- Modelled from the spec: `codepy.tools.join_continued_lines` is code of
this repository that is not under `src/` (only `toolchain.py` is); the
spec says backslash line continuations are "folded into single logical
lines".  A line ending in a backslash loses the backslash and is joined
with the following line (a trailing backslash on the final line is simply
dropped). -/
def join_continued_lines (lines : List String) : List String :=
  lines.foldr
    (fun l acc =>
      if pyEndsWith l "\\" then
        match acc with
        | [] => [String.mk l.data.dropLast]
        | a :: rest => (String.mk l.data.dropLast ++ a) :: rest
      else l :: acc)
    []

/-- The parsing step of `GCCLikeToolchain.get_dependencies`
(`toolchain.py` lines 171-174): split the captured stdout into lines,
fold continuations, then
`set(flatten(line.split()[2:] for line in lines))`. -/
def parseDepLines (stdout : String) : Finset String :=
  let lines := join_continued_lines (pySplitLines stdout)
  ((lines.map (fun line => (pySplitWS line).drop 2)).flatten).toFinset

/-- The command line assembled by `GCCLikeToolchain.get_dependencies`
(`toolchain.py` lines 158-166). -/
def gccDepsCmdline (tc : Toolchain) (source_files : List String) : List String :=
  [tc.cc] ++ ["-M"]
    ++ tc.defines.map (fun d => "-D" ++ d)
    ++ tc.undefines.map (fun u => "-U" ++ u)
    ++ tc.include_dirs.map (fun i => "-I" ++ i)
    ++ tc.cflags ++ source_files

/-- `GCCLikeToolchain.get_dependencies(source_files)` (`toolchain.py`
lines 156-174), parameterized by the process-execution primitive
`exec : cmdline ↦ (exit code, stdout, stderr)`. -/
def gccGetDependencies (exec : List String → Int × String × String)
    (tc : Toolchain) (source_files : List String) :
    Except String (Finset String) :=
  let r := exec (gccDepsCmdline tc source_files)
  if r.1 ≠ 0 then .error ("getting dependencies failed: " ++ r.2.2)
  else .ok (parseDepLines r.2.1)

instance {ε α : Type} [DecidableEq ε] [DecidableEq α] :
    DecidableEq (Except ε α) := fun a b =>
  match a, b with
  | .ok x, .ok y =>
    if h : x = y then isTrue (h ▸ rfl)
    else isFalse (fun hc => h (by injection hc))
  | .error x, .error y =>
    if h : x = y then isTrue (h ▸ rfl)
    else isFalse (fun hc => h (by injection hc))
  | .ok _, .error _ => isFalse (fun hc => Except.noConfusion hc)
  | .error _, .ok _ => isFalse (fun hc => Except.noConfusion hc)

/-- The observable result of a build executor: the diagnostic lines it
printed to the process's standard error stream, and either success or the
message of the raised `CompileError`. -/
structure BuildOutcome where
  printedStderr : List String
  outcome : Except String Unit
deriving DecidableEq, Repr

/-- The shared shape of `GCCLikeToolchain.build_object` /
`build_extension` / `link_extension` (`toolchain.py` lines 176-228):
derive the command line, run it with `pytools.prefork.call` (which
captures no output, so only the exit code is observed), and on non-zero
exit print `"FAILED compiler invocation:" + " ".join(cc_cmdline)` to
stderr and raise `CompileError("module compilation failed")`. -/
def gccLikeBuild (cmdline : List String → Bool → List String)
    (call : List String → Int)
    (out_file : String) (files : List String) (object : Bool) : BuildOutcome :=
  let cc_cmdline := cmdline files object ++ ["-o", out_file]
  if call cc_cmdline ≠ 0 then
    { printedStderr := ["FAILED compiler invocation:" ++ pyJoin " " cc_cmdline]
      outcome := .error "module compilation failed" }
  else { printedStderr := [], outcome := .ok () }

/-- `GCCLikeToolchain.build_object` on a GCC toolchain. -/
def gccBuildObject (call : List String → Int) (tc : Toolchain)
    (obj_file : String) (source_files : List String) : BuildOutcome :=
  gccLikeBuild (gccCmdline tc) call obj_file source_files true

/-- `GCCLikeToolchain.build_extension` on a GCC toolchain. -/
def gccBuildExtension (call : List String → Int) (tc : Toolchain)
    (ext_file : String) (source_files : List String) : BuildOutcome :=
  gccLikeBuild (gccCmdline tc) call ext_file source_files false

/-- `GCCLikeToolchain.link_extension` on a GCC toolchain. -/
def gccLinkExtension (call : List String → Int) (tc : Toolchain)
    (ext_file : String) (object_files : List String) : BuildOutcome :=
  gccLikeBuild (gccCmdline tc) call ext_file object_files false

/-- `GCCLikeToolchain.build_extension` as inherited by `NVCCToolchain`
(no override exists): dispatches to `NVCCToolchain._cmdline` but keeps
the base-class execution path, which observes only the exit code and
performs no scan of the error output. -/
def nvccBuildExtension (call : List String → Int) (tc : Toolchain)
    (ext_file : String) (source_files : List String) : BuildOutcome :=
  gccLikeBuild (nvccCmdline tc) call ext_file source_files false

/-- `NVCCToolchain.build_object` (`toolchain.py` lines 336-358): captures
the output, and if the captured stderr contains the substring `"error"`
overrides the exit code with 1 before the failure test (workaround for
nvcc exiting zero on failure). -/
def nvccObjCmdline (tc : Toolchain) (obj_file : String)
    (source_files : List String) : List String :=
  nvccCmdline tc source_files true ++ ["-o", obj_file]

/-- `NVCCToolchain.build_object`, continued: runs `nvccObjCmdline` through
`call_capture_output` and applies the error-output override. -/
def nvccBuildObject (exec : List String → Int × String × String)
    (tc : Toolchain) (obj_file : String) (source_files : List String) :
    BuildOutcome :=
  let cc_cmdline := nvccObjCmdline tc obj_file source_files
  let r := exec cc_cmdline
  let result := if strInB "error" r.2.2 then 1 else r.1
  if result ≠ 0 then
    { printedStderr := ["FAILED compiler invocation:" ++ pyJoin " " cc_cmdline]
      outcome := .error "module compilation failed" }
  else { printedStderr := [], outcome := .ok () }

/-- Models the presence check of `ISPCToolchain.build_extension`
(`toolchain.py` line 578):

    if not any(file.endswith('tasksys.cpp') for f in source_files):

The generator's loop variable is `f`, but its body references `file`,
which is bound nowhere in the enclosing scopes (and is not a Python 3
builtin), so evaluating the body raises `NameError` on the first
iteration.  Hence the check raises for every non-empty `source_files`
and yields `False` (no iterations) for the empty list. -/
def tasksysPresenceCheck : List String → Except String Bool
  | [] => .ok false
  | _ :: _ => .error "NameError: name 'file' is not defined"

/-- Python `list += str` extends the list element-wise with the string's
characters. -/
def pyListPlusStr (l : List String) (s : String) : List String :=
  l ++ s.data.map (fun c => String.mk [c])

/-- The keyword arguments of `ISPCToolchain.__init__` with their source
defaults (`toolchain.py` lines 399-451), restricted to the deterministic
`target='host'` path (any other target triggers a subprocess probe), plus
the pass-through record fields. -/
structure ISPCInitArgs where
  cc : String := "ispc"
  cpp : String := "g++"
  ld : String := "ld"
  use_openmp : Bool := true
  defines : List String := []
  libraries : List String := []
  cppflags : List String := ["-fPIC"]
  cflags : List String := ["--pic"]
  ldflags : List String := []
  undefines : List String := []
  include_dirs : List String := []
  library_dirs : List String := []
deriving Repr

/-- `ISPCToolchain.__init__` on the default `target='host'` path
(`toolchain.py` lines 399-462): the OpenMP choice appends
`'ISPC_USE_OMP'`/`['-fopenmp']`, or `'ISPC_USE_PTHREADS'` together with
`libraries += 'pthreads'` (a Python `list += str`, hence element-wise
characters); `target_flags = ['--target', 'host']` are appended to
`cflags`. -/
def ispcInitHost (a : ISPCInitArgs) : ISPCToolchain :=
  let defines := if a.use_openmp then a.defines ++ ["ISPC_USE_OMP"]
    else a.defines ++ ["ISPC_USE_PTHREADS"]
  let libraries := if a.use_openmp then a.libraries ++ ["-fopenmp"]
    else pyListPlusStr a.libraries "pthreads"
  let target_flags := ["--target", "host"]
  { cc := a.cc
    cpp := a.cpp
    ld := a.ld
    cflags := a.cflags ++ target_flags
    cppflags := a.cppflags
    ldflags := a.ldflags
    libraries := libraries
    include_dirs := a.include_dirs
    library_dirs := a.library_dirs
    defines := defines
    undefines := a.undefines
    features := [] }

/-- `GCCLikeToolchain.build_extension` as inherited through
`super(ISPCToolchain, self)` (`toolchain.py` lines 585-586): the command
line comes from `ISPCToolchain._cmdline`, whose `CompileError` for mixed
file types propagates. -/
def ispcSuperBuildExtension (call : List String → Int) (tc : ISPCToolchain)
    (ext_file : String) (source_files : List String) : BuildOutcome :=
  match ispcCmdline tc source_files false with
  | .error e => { printedStderr := [], outcome := .error e }
  | .ok c =>
    let cc_cmdline := c ++ ["-o", ext_file]
    if call cc_cmdline ≠ 0 then
      { printedStderr := ["FAILED compiler invocation:" ++ pyJoin " " cc_cmdline]
        outcome := .error "module compilation failed" }
    else { printedStderr := [], outcome := .ok () }

/-- `ISPCToolchain.build_extension` (`toolchain.py` lines 573-586):
checks for a `tasksys.cpp` input via `tasksysPresenceCheck` (which
models the unbound-name bug), injects
`join(realpath(__file__), 'include', 'codepy' 'tasksys.cpp')` — the two
adjacent string literals concatenate to `'codepytasksys.cpp'` — when the
check yields `False`, then delegates to the inherited build.
`module_path` stands for `realpath(__file__)`. -/
def ispcBuildExtension (call : List String → Int) (tc : ISPCToolchain)
    (module_path : String) (ext_file : String) (source_files : List String) :
    BuildOutcome :=
  match tasksysPresenceCheck source_files with
  | .error e => { printedStderr := [], outcome := .error e }
  | .ok present =>
    let source_files := if present then source_files
      else source_files ++ [module_path ++ "/include/" ++ "codepytasksys.cpp"]
    ispcSuperBuildExtension call tc ext_file source_files

/-- A concrete GCC toolchain configuration, used to instantiate theorems. -/
def tcGCC0 : Toolchain :=
  { cc := "gcc", ld := "ld", cflags := ["-fPIC"], ldflags := ["-shared"]
    libraries := ["m"], include_dirs := ["/usr/include"]
    library_dirs := ["/usr/lib"], so_ext := ".so", o_ext := ".o"
    defines := ["FOO"], undefines := ["BAR"], features := [] }

/-- A concrete NVCC toolchain configuration, as `guess_nvcc_toolchain`
would shape it. -/
def tcNVCC0 : Toolchain :=
  { cc := "nvcc", ld := "ld", cflags := ["-Xcompiler", "-fPIC"], ldflags := []
    libraries := ["m"], include_dirs := ["/usr/include"]
    library_dirs := ["/usr/lib"], so_ext := ".so", o_ext := ".o"
    defines := [], undefines := ["__BLOCKS__"], features := [] }

/-- The ISPC toolchain built by `ISPCToolchain.__init__` with all
defaults. -/
def ispcHostTc : ISPCToolchain := ispcInitHost {}

/-- A process model whose child always exits 1. -/
def callFail : List String → Int := fun _ => 1

/-- A process model whose child exits 0 while printing an error
diagnostic on stderr (the nvcc false-zero-exit behaviour). -/
def execZeroErr : List String → Int × String × String :=
  fun _ => (0, "", "error: kernel launch failure")

end Codepy

namespace Codepy

/-! ## Helper lemmas -/

theorem appendNewDirs_cons (cur : List String) (d : String) (new : List String) :
    appendNewDirs cur (d :: new)
      = appendNewDirs (if d ∈ cur then cur else cur ++ [d]) new := rfl

theorem mem_appendNewDirs (x : String) (new : List String) :
    ∀ cur, x ∈ appendNewDirs cur new ↔ x ∈ cur ∨ x ∈ new := by
  induction new with
  | nil =>
    intro cur
    simp [appendNewDirs]
  | cons d new ih =>
    intro cur
    rw [appendNewDirs_cons, ih]
    by_cases h : d ∈ cur
    · rw [if_pos h]
      simp only [List.mem_cons]
      constructor
      · rintro (hx | hx)
        · exact Or.inl hx
        · exact Or.inr (Or.inr hx)
      · rintro (hx | rfl | hx)
        · exact Or.inl hx
        · exact Or.inl h
        · exact Or.inr hx
    · rw [if_neg h]
      simp only [List.mem_append, List.mem_cons, List.mem_singleton]
      tauto

theorem nodup_appendNewDirs (new : List String) :
    ∀ cur : List String, cur.Nodup → (appendNewDirs cur new).Nodup := by
  induction new with
  | nil =>
    intro cur h
    exact h
  | cons d new ih =>
    intro cur h
    rw [appendNewDirs_cons]
    by_cases hd : d ∈ cur
    · rw [if_pos hd]
      exact ih cur h
    · rw [if_neg hd]
      refine ih _ (h.append (List.nodup_singleton d) ?_)
      intro a ha hab
      rw [List.mem_singleton] at hab
      subst hab
      exact hd ha

theorem prefix_appendNewDirs (new : List String) :
    ∀ cur : List String, cur <+: appendNewDirs cur new := by
  induction new with
  | nil =>
    intro cur
    exact List.prefix_refl cur
  | cons d new ih =>
    intro cur
    rw [appendNewDirs_cons]
    by_cases hd : d ∈ cur
    · rw [if_pos hd]
      exact ih cur
    · rw [if_neg hd]
      exact List.IsPrefix.trans (List.prefix_append cur [d]) (ih (cur ++ [d]))

theorem string_append_cancel_left (p : String) {a b : String}
    (h : p ++ a = p ++ b) : a = b := by
  apply String.ext
  have hd := congrArg String.data h
  simpa using hd

theorem map_str_append_inj (p : String) {l1 l2 : List String}
    (h : l1.map (fun s => p ++ s) = l2.map (fun s => p ++ s)) : l1 = l2 :=
  List.map_injective_iff.mpr
    (fun _ _ hab => string_append_cancel_left p hab) h

theorem stripFlags_eq_filter (pfxs : List String) :
    ∀ flags, stripFlags pfxs flags
      = flags.filter (fun f => pfxs.all (fun p => !(pyStartsWith f p))) := by
  induction pfxs with
  | nil =>
    intro flags
    simp [stripFlags]
  | cons p ps ih =>
    intro flags
    rw [show stripFlags (p :: ps) flags
        = stripFlags ps (flags.filter (fun f => !(pyStartsWith f p))) from rfl]
    rw [ih, List.filter_filter]
    congr 1
    funext f
    simp [Bool.and_comm]

theorem stripFlags_append (pfxs a b : List String) :
    stripFlags pfxs (a ++ b) = stripFlags pfxs a ++ stripFlags pfxs b := by
  simp [stripFlags_eq_filter, List.filter_append]

theorem stripFlags_idem (pfxs flags : List String) :
    stripFlags pfxs (stripFlags pfxs flags) = stripFlags pfxs flags := by
  simp [stripFlags_eq_filter, List.filter_filter, Bool.and_self]

theorem pyStartsWith_append (p s : String) : pyStartsWith (p ++ s) p = true := by
  simp only [pyStartsWith, String.data_append, List.isPrefixOf_iff_prefix]
  exact List.prefix_append _ _

theorem stripFlags_gccOflags (level : OptLevel) (vt : List Int) :
    stripFlags gccOptPrefixes (gccOflags level vt) = [] := by
  rw [stripFlags_eq_filter, List.filter_eq_nil_iff]
  intro a ha
  cases level with
  | debug =>
    simp only [gccOflags, List.mem_singleton] at ha
    subst ha
    decide
  | num n =>
    have ha' : a = "-O" ++ toString n ∨ a = "-DNDEBUG"
        ∨ a = "-march=native" ∨ a = "-mtune=native" := by
      simp only [gccOflags, List.mem_append] at ha
      rcases ha with h | h
      · simp at h
        tauto
      · split at h
        · simp at h
          tauto
        · simp at h
    rcases ha' with rfl | rfl | rfl | rfl
    · simp [gccOptPrefixes, pyStartsWith_append]
    · decide
    · decide
    · decide

theorem stripFlags_ispcOflags (level : OptLevel) :
    stripFlags ispcOptPrefixes (ispcOflags level) = [] := by
  rw [stripFlags_eq_filter, List.filter_eq_nil_iff]
  intro a ha
  cases level with
  | debug =>
    simp only [ispcOflags, List.mem_singleton] at ha
    subst ha
    decide
  | num n =>
    have ha' : a = "-O" ++ toString n ∨ a = "-DNDEBUG" := by
      simp only [ispcOflags] at ha
      simp at ha
      tauto
    rcases ha' with rfl | rfl
    · simp [ispcOptPrefixes, pyStartsWith_append]
    · decide

/-! ## Claim C1: dependency-output parsing -/

/-- Claim C1, counterexample.  The claim says that for the
continuation-joined dependency output `"out.o: a.h b.h \\\nc.h"`,
`get_dependencies` returns `{"a.h", "b.h", "c.h"}` (only the target and
the colon discarded).  In the source the colon is glued to the target, so
`line.split()[2:]` also discards the first dependency: the result is
`{"b.h", "c.h"}`. -/
theorem C1_counterexample :
    gccGetDependencies (fun _ => (0, "out.o: a.h b.h \\\nc.h", "")) tcGCC0
        ["src.c"]
      = .ok ({"b.h", "c.h"} : Finset String)
    ∧ ({"b.h", "c.h"} : Finset String) ≠ {"a.h", "b.h", "c.h"} :=
  ⟨by decide, by decide⟩

/-- Claim C1, amended: on a zero exit, `get_dependencies` returns the
parse of the captured stdout, which folds backslash continuations and
discards the first two whitespace-delimited tokens of each logical line.
When the colon is glued to the target (`"out.o:"`, the gcc `-M` format)
the two discarded tokens are the target-colon token and the first
dependency, so the example input yields `{"b.h", "c.h"}`; only when the
colon stands alone as a token does it yield `{"a.h", "b.h", "c.h"}`. -/
theorem C1_amended_deps_parse :
    (∀ (exec : List String → Int × String × String) (tc : Toolchain)
        (source_files : List String) (stdout err : String),
      exec (gccDepsCmdline tc source_files) = (0, stdout, err) →
      gccGetDependencies exec tc source_files = .ok (parseDepLines stdout))
    ∧ parseDepLines "out.o: a.h b.h \\\nc.h" = {"b.h", "c.h"}
    ∧ parseDepLines "out.o : a.h b.h \\\nc.h" = {"a.h", "b.h", "c.h"} := by
  refine ⟨?_, by decide, by decide⟩
  intro exec tc source_files stdout err h
  simp [gccGetDependencies, h]

/-- Claim C1, witness for the amended theorem at a concrete scan. -/
theorem C1_amended_deps_parse_witness :
    gccGetDependencies (fun _ => (0, "out.o: a.h b.h \\\nc.h", "")) tcGCC0
        ["src.c"]
      = .ok (parseDepLines "out.o: a.h b.h \\\nc.h") :=
  C1_amended_deps_parse.1 (fun _ => (0, "out.o: a.h b.h \\\nc.h", ""))
    tcGCC0 ["src.c"] "out.o: a.h b.h \\\nc.h" "" rfl

/-! ## Claim C2: `abi_id` sensitivity -/

/-- Claim C2: `abi_id` ignores the enabled-features set entirely (so any
two configurations identical up to the contents or ordering of
`features` fingerprint equally), while — all other fields and the
version strings held fixed — a change to the compile flags, defines,
undefines, include path or library path changes the fingerprint, because
the baseline command line embedded in it changes. -/
theorem C2_abi_id (tc : Toolchain) (version pyVersion : String)
    (fs cf df uf ids lds : List String)
    (hcf : cf ≠ tc.cflags) (hdf : df ≠ tc.defines) (huf : uf ≠ tc.undefines)
    (hids : ids ≠ tc.include_dirs) (hlds : lds ≠ tc.library_dirs) :
    gccAbiId { tc with features := fs } version pyVersion
        = gccAbiId tc version pyVersion
    ∧ gccAbiId { tc with cflags := cf } version pyVersion
        ≠ gccAbiId tc version pyVersion
    ∧ gccAbiId { tc with defines := df } version pyVersion
        ≠ gccAbiId tc version pyVersion
    ∧ gccAbiId { tc with undefines := uf } version pyVersion
        ≠ gccAbiId tc version pyVersion
    ∧ gccAbiId { tc with include_dirs := ids } version pyVersion
        ≠ gccAbiId tc version pyVersion
    ∧ gccAbiId { tc with library_dirs := lds } version pyVersion
        ≠ gccAbiId tc version pyVersion := by
  refine ⟨rfl, ?_, ?_, ?_, ?_, ?_⟩
  · intro h
    have hc := congrArg AbiId.cmdline h
    simp [gccAbiId, gccCmdline] at hc
    exact hcf hc
  · intro h
    have hc := congrArg AbiId.cmdline h
    simp [gccAbiId, gccCmdline] at hc
    exact hdf (map_str_append_inj "-D" hc)
  · intro h
    have hc := congrArg AbiId.cmdline h
    simp [gccAbiId, gccCmdline] at hc
    exact huf (map_str_append_inj "-U" hc)
  · intro h
    have hc := congrArg AbiId.cmdline h
    simp [gccAbiId, gccCmdline] at hc
    exact hids (map_str_append_inj "-I" hc)
  · intro h
    have hc := congrArg AbiId.cmdline h
    simp [gccAbiId, gccCmdline] at hc
    exact hlds (map_str_append_inj "-L" hc)

/-- Claim C2, witness: a concrete configuration whose fingerprint is
insensitive to the features set and sensitive to a flag change. -/
theorem C2_abi_id_witness :
    gccAbiId { tcGCC0 with features := ["f2", "f1"] } "gcc 12" "3.11"
        = gccAbiId tcGCC0 "gcc 12" "3.11"
    ∧ gccAbiId { tcGCC0 with cflags := ["-O2"] } "gcc 12" "3.11"
        ≠ gccAbiId tcGCC0 "gcc 12" "3.11" :=
  ⟨(C2_abi_id tcGCC0 "gcc 12" "3.11" ["f2", "f1"] ["-O2"] ["D1"] ["U1"]
      ["/i1"] ["/l1"] (by decide) (by decide) (by decide) (by decide)
      (by decide)).1,
    (C2_abi_id tcGCC0 "gcc 12" "3.11" ["f2", "f1"] ["-O2"] ["D1"] ["U1"]
      ["/i1"] ["/l1"] (by decide) (by decide) (by decide) (by decide)
      (by decide)).2.1⟩

/-! ## Claim C3: `add_library` is idempotent -/

/-- Claim C3: when the feature is already recorded, `add_library` is a
silent no-op leaving every field unchanged; consequently calling it twice
with the same feature name and arguments equals calling it once. -/
theorem C3_add_library_idempotent (tc : Toolchain) (f : String)
    (ids lds libs : List String) :
    (f ∈ tc.features → add_library tc f ids lds libs = tc)
    ∧ add_library (add_library tc f ids lds libs) f ids lds libs
        = add_library tc f ids lds libs := by
  have key : ∀ s : Toolchain, f ∈ s.features → add_library s f ids lds libs = s := by
    intro s hs
    simp [add_library, hs]
  refine ⟨key tc, ?_⟩
  by_cases h : f ∈ tc.features
  · rw [key tc h, key tc h]
  · exact key _ (by simp [add_library, h, featAdd])

/-- Claim C3, witness: a concrete toolchain whose feature set already
holds the requested feature. -/
theorem C3_add_library_idempotent_witness :
    add_library { tcGCC0 with features := ["openmp"] } "openmp"
        ["/opt/inc"] ["/opt/lib"] ["gomp"]
      = { tcGCC0 with features := ["openmp"] } :=
  (C3_add_library_idempotent { tcGCC0 with features := ["openmp"] } "openmp"
    ["/opt/inc"] ["/opt/lib"] ["gomp"]).1 (by decide)

/-! ## Claim C4: `add_library` on a fresh feature -/

/-- Claim C4: on a not-yet-recorded feature, `add_library` appends only
the given include/library directories that are not already present
(keeping the pre-existing entries as an unchanged prefix and never
creating a duplicate when the receiver had none), and sets `libraries`
to the new libraries followed by the previously present ones, so later
additions link ahead of earlier ones. -/
theorem C4_add_library_fresh (tc : Toolchain) (f : String)
    (ids lds libs : List String) (hf : f ∉ tc.features)
    (hni : tc.include_dirs.Nodup) (hnl : tc.library_dirs.Nodup) :
    ((add_library tc f ids lds libs).include_dirs.Nodup
      ∧ tc.include_dirs <+: (add_library tc f ids lds libs).include_dirs
      ∧ ∀ d, d ∈ (add_library tc f ids lds libs).include_dirs
          ↔ d ∈ tc.include_dirs ∨ d ∈ ids)
    ∧ ((add_library tc f ids lds libs).library_dirs.Nodup
      ∧ tc.library_dirs <+: (add_library tc f ids lds libs).library_dirs
      ∧ ∀ d, d ∈ (add_library tc f ids lds libs).library_dirs
          ↔ d ∈ tc.library_dirs ∨ d ∈ lds)
    ∧ (add_library tc f ids lds libs).libraries = libs ++ tc.libraries := by
  have hr : add_library tc f ids lds libs
      = { tc with
          features := featAdd tc.features f
          include_dirs := appendNewDirs tc.include_dirs ids
          library_dirs := appendNewDirs tc.library_dirs lds
          libraries := libs ++ tc.libraries } := by
    simp [add_library, hf]
  rw [hr]
  exact ⟨⟨nodup_appendNewDirs ids _ hni, prefix_appendNewDirs ids _,
      fun d => mem_appendNewDirs d ids _⟩,
    ⟨nodup_appendNewDirs lds _ hnl, prefix_appendNewDirs lds _,
      fun d => mem_appendNewDirs d lds _⟩, rfl⟩

/-- Claim C4, witness: a concrete fresh-feature addition, with one of
the requested include directories already present. -/
theorem C4_add_library_fresh_witness :
    (add_library tcGCC0 "blas" ["/usr/include", "/opt/blas/include"]
        ["/opt/blas/lib"] ["blas"]).include_dirs.Nodup
    ∧ (add_library tcGCC0 "blas" ["/usr/include", "/opt/blas/include"]
        ["/opt/blas/lib"] ["blas"]).libraries = ["blas"] ++ tcGCC0.libraries :=
  ⟨(C4_add_library_fresh tcGCC0 "blas" ["/usr/include", "/opt/blas/include"]
      ["/opt/blas/lib"] ["blas"] (by decide) (by decide) (by decide)).1.1,
    (C4_add_library_fresh tcGCC0 "blas" ["/usr/include", "/opt/blas/include"]
      ["/opt/blas/lib"] ["blas"] (by decide) (by decide) (by decide)).2.2⟩

/-! ## Claim C5: `with_optimization_level` is pure and residue-free -/

/-- Claim C5: `with_optimization_level` returns a copy sharing every
field but `cflags` (the receiver itself is never assigned to in the
source, so the operation is pure), and composing two applications leaves
no `-O`, `-g`, `-march`, `-mtune` or `-DNDEBUG` flag of the first
application in the second result: the second result's `cflags` are
exactly the receiver's stripped flags followed by the second level's
`oflags`, and every flag matching one of those prefixes belongs to the
second level's `oflags`.  Both the GCC and the ISPC variant are covered. -/
theorem C5_with_optimization_level_pure (tc : Toolchain) (l1 l2 : OptLevel)
    (vt1 vt2 : List Int) (tci : ISPCToolchain) (m1 m2 : OptLevel) :
    ((gccWithOptimizationLevel tc l1 vt1).cc = tc.cc
      ∧ (gccWithOptimizationLevel tc l1 vt1).ld = tc.ld
      ∧ (gccWithOptimizationLevel tc l1 vt1).ldflags = tc.ldflags
      ∧ (gccWithOptimizationLevel tc l1 vt1).libraries = tc.libraries
      ∧ (gccWithOptimizationLevel tc l1 vt1).include_dirs = tc.include_dirs
      ∧ (gccWithOptimizationLevel tc l1 vt1).library_dirs = tc.library_dirs
      ∧ (gccWithOptimizationLevel tc l1 vt1).defines = tc.defines
      ∧ (gccWithOptimizationLevel tc l1 vt1).undefines = tc.undefines
      ∧ (gccWithOptimizationLevel tc l1 vt1).features = tc.features)
    ∧ (gccWithOptimizationLevel (gccWithOptimizationLevel tc l1 vt1) l2 vt2).cflags
        = stripFlags gccOptPrefixes tc.cflags ++ gccOflags l2 vt2
    ∧ (ispcWithOptimizationLevel (ispcWithOptimizationLevel tci m1) m2).cflags
        = stripFlags ispcOptPrefixes tci.cflags ++ ispcOflags m2
    ∧ (∀ fl ∈ (gccWithOptimizationLevel (gccWithOptimizationLevel tc l1 vt1)
          l2 vt2).cflags,
        (∃ p ∈ gccOptPrefixes, pyStartsWith fl p) → fl ∈ gccOflags l2 vt2) := by
  have hgcc :
      (gccWithOptimizationLevel (gccWithOptimizationLevel tc l1 vt1) l2 vt2).cflags
        = stripFlags gccOptPrefixes tc.cflags ++ gccOflags l2 vt2 := by
    show stripFlags gccOptPrefixes
        (stripFlags gccOptPrefixes tc.cflags ++ gccOflags l1 vt1)
        ++ gccOflags l2 vt2 = _
    rw [stripFlags_append, stripFlags_idem, stripFlags_gccOflags,
      List.append_nil]
  refine ⟨⟨rfl, rfl, rfl, rfl, rfl, rfl, rfl, rfl, rfl⟩, hgcc, ?_, ?_⟩
  · show stripFlags ispcOptPrefixes
        (stripFlags ispcOptPrefixes tci.cflags ++ ispcOflags m1)
        ++ ispcOflags m2 = _
    rw [stripFlags_append, stripFlags_idem, stripFlags_ispcOflags,
      List.append_nil]
  · intro fl hfl hp
    rw [hgcc, List.mem_append] at hfl
    rcases hfl with hfl | hfl
    · exfalso
      rw [stripFlags_eq_filter, List.mem_filter] at hfl
      obtain ⟨p, hpmem, hps⟩ := hp
      have := List.all_eq_true.mp hfl.2 p hpmem
      rw [hps] at this
      simp at this
    · exact hfl

/-- Claim C5, witness: a concrete double application, plus a concrete
discharge of the residue property at the flag `"-g"`. -/
theorem C5_with_optimization_level_pure_witness :
    (gccWithOptimizationLevel (gccWithOptimizationLevel tcGCC0 (.num 3) [4, 4])
        .debug [4, 4]).cflags
      = stripFlags gccOptPrefixes tcGCC0.cflags ++ gccOflags .debug [4, 4]
    ∧ "-g" ∈ gccOflags .debug [4, 4] :=
  ⟨(C5_with_optimization_level_pure tcGCC0 (.num 3) .debug [4, 4] [4, 4]
      ispcHostTc .debug .debug).2.1,
    (C5_with_optimization_level_pure tcGCC0 (.num 3) .debug [4, 4] [4, 4]
      ispcHostTc .debug .debug).2.2.2 "-g" (by decide)
      ⟨"-g", by decide, by decide⟩⟩

/-! ## Claim C8: `ISPCToolchain.build_extension` and `tasksys.cpp` -/

/-- Claim C8: the intended contract is to inject the companion
`tasksys.cpp` exactly when no input already is that file, but the
presence test

    any(file.endswith('tasksys.cpp') for f in source_files)

references the unbound name `file` (the loop variable is `f`), so for
every non-empty source list — whether or not it contains `tasksys.cpp` —
`build_extension` raises `NameError` instead of building. -/
theorem C8_tasksys_check_raises :
    (ispcBuildExtension (fun _ => 0) ispcHostTc "/codepy/toolchain.py" "m.so"
        ["a.ispc"]).outcome
      = .error "NameError: name 'file' is not defined"
    ∧ (ispcBuildExtension (fun _ => 0) ispcHostTc "/codepy/toolchain.py" "m.so"
        ["/pkg/tasksys.cpp"]).outcome
      = .error "NameError: name 'file' is not defined" :=
  ⟨by decide, by decide⟩

/-! ## Claim C6: the CUDA error-output scan -/

/-- Claim C6, counterexample.  The claim says every CUDA build operation
raises `CompileError` on a zero exit whose captured stderr contains
`"error"`.  Only `build_object` is overridden to do so;
`build_extension` (inherited from the GCC-like base) runs the command
through `call`, which captures nothing and tests only the exit code:
with exit 0 and an `"error"` diagnostic on stderr it succeeds. -/
theorem C6_counterexample :
    (execZeroErr (nvccCmdline tcNVCC0 ["a.cu"] false ++ ["-o", "mod.so"])).1 = 0
    ∧ strIn "error"
        (execZeroErr (nvccCmdline tcNVCC0 ["a.cu"] false ++ ["-o", "mod.so"])).2.2
    ∧ (nvccBuildExtension (fun cmd => (execZeroErr cmd).1) tcNVCC0 "mod.so"
        ["a.cu"]).outcome = .ok () :=
  ⟨by decide, by decide, by decide⟩

/-- Claim C6, amended: on the CUDA backend only `build_object` performs
the error-output scan — whenever the captured stderr contains the
substring `"error"` (in particular with a zero exit code) it raises
`CompileError` — while the inherited `build_extension` decides solely by
the exit code of the uncaptured `call`. -/
theorem C6_amended_error_scan (exec : List String → Int × String × String)
    (tc : Toolchain) (obj_file : String) (source_files : List String)
    (herr : strIn "error" (exec (nvccObjCmdline tc obj_file source_files)).2.2) :
    (nvccBuildObject exec tc obj_file source_files).outcome
      = .error "module compilation failed"
    ∧ ∀ (call : List String → Int) (ext_file : String) (srcs : List String),
        (nvccBuildExtension call tc ext_file srcs).outcome
          = if call (nvccCmdline tc srcs false ++ ["-o", ext_file]) ≠ 0
            then .error "module compilation failed" else .ok () := by
  constructor
  · have hb : strInB "error" (exec (nvccObjCmdline tc obj_file source_files)).2.2
        = true := decide_eq_true herr
    simp [nvccBuildObject, hb]
  · intro call ext_file srcs
    simp only [nvccBuildExtension, gccLikeBuild]
    split
    · rfl
    · rfl

/-- Claim C6, witness for the amended theorem: a concrete zero-exit
build with `"error"` on stderr. -/
theorem C6_amended_error_scan_witness :
    (nvccBuildObject execZeroErr tcNVCC0 "a.o" ["a.cu"]).outcome
      = .error "module compilation failed" :=
  (C6_amended_error_scan execZeroErr tcNVCC0 "a.o" ["a.cu"] (by decide)).1

/-! ## Claim C7: the SIMD mixed-file-type check -/

theorem pyEndsWith_extAfterLastDot (f : String) :
    pyEndsWith f (extAfterLastDot f) = true := by
  simp only [pyEndsWith, extAfterLastDot, List.isPrefixOf_iff_prefix]
  rw [List.reverse_reverse]
  exact List.takeWhile_prefix _

theorem extNe_of_pyEndsWith_false {f g : String}
    (h : pyEndsWith g (extAfterLastDot f) = false) :
    extAfterLastDot g ≠ extAfterLastDot f := by
  intro he
  rw [← he] at h
  have ht := pyEndsWith_extAfterLastDot g
  rw [h] at ht
  exact Bool.noConfusion ht

/-- Claim C7, counterexample.  The claim says every command-line-building
call mixing differing file extensions (and dispatching to a non-ISPC
executable) raises an error.  The source checks `f.endswith(ext)` with
`ext` the first file's extension *without* its dot, a suffix test, so
`["a.cpp", "b.xcpp"]` — extensions `cpp` and `xcpp`, dispatched to the
linker — passes the check and no error is raised. -/
theorem C7_counterexample :
    extAfterLastDot "a.cpp" ≠ extAfterLastDot "b.xcpp"
    ∧ getCC ispcHostTc ["a.cpp", "b.xcpp"] true ≠ ispcHostTc.cc
    ∧ ispcCmdline ispcHostTc ["a.cpp", "b.xcpp"] true
        = .ok ["ld", "-fPIC", "-c", "-DISPC_USE_OMP", "a.cpp", "b.xcpp"] :=
  ⟨by decide, by decide, by decide⟩

/-- Claim C7, amended: when the call dispatches to a non-ISPC executable
and some input does not end with the first input's dot-free extension
string (`f.endswith(ext)` — a suffix test, not extension equality),
`_cmdline` raises `CompileError` and the message names the distinct
extensions of all inputs; in particular one `.ispc` plus one `.cpp`
input is rejected with both `ispc` and `cpp` in the message. -/
theorem C7_amended_mixed_reject (tc : ISPCToolchain) (f g : String) (obj : Bool)
    (hcc : getCC tc [f, g] obj ≠ tc.cc)
    (hdf : hasDot f = true) (hdg : hasDot g = true)
    (hmix : pyEndsWith g (extAfterLastDot f) = false) :
    ispcCmdline tc [f, g] obj
      = .error ("Can't compile mixed filetypes: "
          ++ (extAfterLastDot f ++ ", " ++ extAfterLastDot g))
    ∧ strIn (extAfterLastDot f)
        ("Can't compile mixed filetypes: "
          ++ (extAfterLastDot f ++ ", " ++ extAfterLastDot g))
    ∧ strIn (extAfterLastDot g)
        ("Can't compile mixed filetypes: "
          ++ (extAfterLastDot f ++ ", " ++ extAfterLastDot g)) := by
  have hne : extAfterLastDot g ≠ extAfterLastDot f :=
    extNe_of_pyEndsWith_false hmix
  refine ⟨?_, ?_, ?_⟩
  · have hdedup : dedupKeepFirst [extAfterLastDot f, extAfterLastDot g]
        = [extAfterLastDot f, extAfterLastDot g] := by
      simp [dedupKeepFirst, appendNewDirs, hne]
    simp [ispcCmdline, hcc, hdf, hdg, hmix, hdedup, pyJoin,
      pyEndsWith_extAfterLastDot]
  · exact ⟨"Can't compile mixed filetypes: ".data,
      ", ".data ++ (extAfterLastDot g).data, by simp⟩
  · exact ⟨"Can't compile mixed filetypes: ".data ++ (extAfterLastDot f).data
      ++ ", ".data, [], by simp⟩

/-- Claim C7, witness for the amended theorem: one `.ispc` file and one
`.cpp` file in the same call. -/
theorem C7_amended_mixed_reject_witness :
    ispcCmdline ispcHostTc ["a.ispc", "b.cpp"] true
      = .error ("Can't compile mixed filetypes: "
          ++ (extAfterLastDot "a.ispc" ++ ", " ++ extAfterLastDot "b.cpp")) :=
  (C7_amended_mixed_reject ispcHostTc "a.ispc" "b.cpp" true (by decide)
    (by decide) (by decide) (by decide)).1

/-! ## Claim C9: failure reporting of the build executors -/

/-- Claim C9, counterexample.  The claim says the raised compile error
carries the exact command line and the captured stderr.  The source
raises `CompileError("module compilation failed")` — a fixed message that
does not contain the command line (and the GCC-like executors capture no
stderr at all); the command line is only printed to the process's stderr
stream. -/
theorem C9_counterexample :
    (gccBuildObject callFail tcGCC0 "out.o" ["a.c"]).outcome
      = .error "module compilation failed"
    ∧ ¬ strIn (pyJoin " " (gccCmdline tcGCC0 ["a.c"] true ++ ["-o", "out.o"]))
        "module compilation failed" :=
  ⟨by decide, by decide⟩

/-- Claim C9, amended: on a non-zero exit each of `build_object`,
`build_extension` and `link_extension` raises `CompileError` with the
fixed message `"module compilation failed"`, after printing
`"FAILED compiler invocation:"` followed by the exact joined command
line to the process's stderr stream (which therefore contains the
command line); no output of the child is captured. -/
theorem C9_amended_failure_report (call : List String → Int) (tc : Toolchain)
    (out_file : String) (files : List String)
    (h1 : call (gccCmdline tc files true ++ ["-o", out_file]) ≠ 0)
    (h2 : call (gccCmdline tc files false ++ ["-o", out_file]) ≠ 0) :
    gccBuildObject call tc out_file files
      = { printedStderr := ["FAILED compiler invocation:"
            ++ pyJoin " " (gccCmdline tc files true ++ ["-o", out_file])]
          outcome := .error "module compilation failed" }
    ∧ gccBuildExtension call tc out_file files
      = { printedStderr := ["FAILED compiler invocation:"
            ++ pyJoin " " (gccCmdline tc files false ++ ["-o", out_file])]
          outcome := .error "module compilation failed" }
    ∧ gccLinkExtension call tc out_file files
      = { printedStderr := ["FAILED compiler invocation:"
            ++ pyJoin " " (gccCmdline tc files false ++ ["-o", out_file])]
          outcome := .error "module compilation failed" }
    ∧ strIn (pyJoin " " (gccCmdline tc files true ++ ["-o", out_file]))
        ("FAILED compiler invocation:"
          ++ pyJoin " " (gccCmdline tc files true ++ ["-o", out_file])) := by
  refine ⟨?_, ?_, ?_, ?_⟩
  · simp [gccBuildObject, gccLikeBuild, h1]
  · simp [gccBuildExtension, gccLikeBuild, h2]
  · simp [gccLinkExtension, gccLikeBuild, h2]
  · exact ⟨"FAILED compiler invocation:".data, [], by simp⟩

/-- Claim C9, witness for the amended theorem: a concrete failing call. -/
theorem C9_amended_failure_report_witness :
    (gccBuildObject callFail tcGCC0 "out.o" ["a.c"]).printedStderr
      = ["FAILED compiler invocation:"
          ++ pyJoin " " (gccCmdline tcGCC0 ["a.c"] true ++ ["-o", "out.o"])] :=
  congrArg BuildOutcome.printedStderr
    (C9_amended_failure_report callFail tcGCC0 "out.o" ["a.c"] (by decide)
      (by decide)).1

/-! ## Claim C10: `ISPCToolchain.__init__` and the OpenMP choice -/

/-- Claim C10: with `use_openmp=False` the constructor executes
`libraries += 'pthreads'`, a Python `list += str` that extends the list
with the eight single-character strings of `"pthreads"` (and appends the
define `ISPC_USE_PTHREADS`); with `use_openmp=True` (the default) it
appends the single entry `'-fopenmp'` and the define `ISPC_USE_OMP`. -/
theorem C10_ispc_init_openmp (a : ISPCInitArgs) :
    (ispcInitHost { a with use_openmp := false }).libraries
        = a.libraries ++ ["p", "t", "h", "r", "e", "a", "d", "s"]
    ∧ (ispcInitHost { a with use_openmp := false }).defines
        = a.defines ++ ["ISPC_USE_PTHREADS"]
    ∧ (ispcInitHost { a with use_openmp := true }).libraries
        = a.libraries ++ ["-fopenmp"]
    ∧ (ispcInitHost { a with use_openmp := true }).defines
        = a.defines ++ ["ISPC_USE_OMP"] := by
  have hchars : "pthreads".data.map (fun c => String.mk [c])
      = ["p", "t", "h", "r", "e", "a", "d", "s"] := by decide
  refine ⟨?_, ?_, ?_, ?_⟩ <;> simp [ispcInitHost, pyListPlusStr, hchars]

end Codepy
